import Mathlib

/-!
Verification of the PlacementPanic answer-evaluation core.

Shallow embedding of src/server/answer-service.ts (the AnswerEvaluator
scoring heuristic and the MemAnswerStorage in-memory store) together with
the answer-construction performed by the POST /api/answers/submit route
handler.  JavaScript strings are modelled as Lean `String`; `Date` values
as `Nat`; `Map<string, Answer>` as an association list.
-/

namespace PlacementPanic

/-- JavaScript `str.split(/\s+/)` on the character list of a string:
maximal whitespace runs separate tokens, and a leading (resp. trailing)
whitespace run produces an empty token at the front (resp. back);
the empty string yields the single token `""`. -/
def splitWs : List Char → List (List Char)
  | [] => [[]]
  | [c] => if c.isWhitespace then [[], []] else [[c]]
  | c :: c2 :: cs =>
    if c.isWhitespace then
      if c2.isWhitespace then splitWs (c2 :: cs)
      else [] :: splitWs (c2 :: cs)
    else
      match splitWs (c2 :: cs) with
      | [] => [[c]]
      | t :: ts => (c :: t) :: ts

/-- Number of maximal whitespace runs in a character list. -/
def wsRuns : List Char → Nat
  | [] => 0
  | [c] => if c.isWhitespace then 1 else 0
  | c :: c2 :: cs =>
    (if c.isWhitespace ∧ ¬ c2.isWhitespace then 1 else 0) + wsRuns (c2 :: cs)

/-- JavaScript `haystack.includes(needle)`: substring containment
(the empty needle is contained in every string). -/
def containsSub (needle : List Char) : List Char → Bool
  | [] => needle.isEmpty
  | c :: cs => List.isPrefixOf needle (c :: cs) || containsSub needle cs

/-- JavaScript `str.toLowerCase()`, character-wise. -/
def toLowerList (l : List Char) : List Char := l.map Char.toLower

/-- `answerText.split(/\s+/).length` — the word count used by
`calculateScore` and `generateFeedback` (answer-service.ts lines 65, 141). -/
def wordCount (s : String) : Nat := (splitWs s.data).length

namespace AnswerEvaluator

/-- The fixed technical vocabulary of `countTechnicalTerms`
(answer-service.ts lines 103-124). -/
def technicalKeywords : List String :=
  ["algorithm", "time complexity", "space complexity", "optimization",
   "database", "api", "async", "promise", "callback", "inheritance",
   "encapsulation", "polymorphism", "design pattern", "microservice",
   "cache", "index", "query", "transaction", "concurrency", "thread"]

/-- `countTechnicalTerms` (answer-service.ts lines 102-132): how many of the
fixed keywords occur as a substring of the lower-cased text. -/
def countTechnicalTerms (text : String) : Nat :=
  (technicalKeywords.filter
    (fun keyword => containsSub keyword.data (toLowerList text.data))).length

/-- The difficulty-dependent word-count bonus of `calculateScore`
(answer-service.ts lines 66-75). -/
def lengthBonus (difficulty : String) (wc : Nat) : Int :=
  if difficulty = "easy" then
    if wc ≥ 30 then 20 else if wc ≥ 15 then 10 else 0
  else if difficulty = "medium" then
    if wc ≥ 60 then 20 else if wc ≥ 40 then 10 else 0
  else
    if wc ≥ 100 then 20 else if wc ≥ 70 then 10 else 0

/-- The word-count threshold earning the +20 bonus for each difficulty
(30 / 60 / 100 in answer-service.ts lines 67, 70, 73). -/
def highThreshold (difficulty : String) : Nat :=
  if difficulty = "easy" then 30 else if difficulty = "medium" then 60 else 100

/-- `score += Math.min(technicalTerms * 3, 15)` (answer-service.ts line 78). -/
def techAdjustment (answerText : String) : Int :=
  min ((countTechnicalTerms answerText : Int) * 3) 15

/-- The structure check of `calculateScore` (answer-service.ts lines 80-85). -/
def hasStructure (answerText : String) : Bool :=
  answerText.data.contains '\n' || answerText.data.contains ':' ||
  answerText.data.contains ';' || answerText.data.contains ','

/-- `questionText.split(/\s+/).filter((w) => w.length > 3)`
(answer-service.ts lines 89-91). -/
def questionTerms (questionText : String) : List (List Char) :=
  (splitWs questionText.data).filter (fun w => w.length > 3)

/-- The number of question terms found (case-insensitive substring) in the
answer text (answer-service.ts lines 92-94). -/
def relevantCount (questionText answerText : String) : Nat :=
  ((questionTerms questionText).filter
    (fun term => containsSub (toLowerList term) (toLowerList answerText.data))).length

/-- `if (relevantTerms.length > 0) score += Math.min(relevantTerms.length * 5, 15)`
(answer-service.ts lines 95-97). -/
def relevanceAdjustment (questionText answerText : String) : Int :=
  if relevantCount questionText answerText > 0 then
    min ((relevantCount questionText answerText : Int) * 5) 15
  else 0

/-- `AnswerEvaluator.calculateScore` (answer-service.ts lines 59-100). -/
def calculateScore (answerText questionText difficulty : String) : Int :=
  let score : Int := 50
  let wc := wordCount answerText
  let score := score + lengthBonus difficulty wc
  let score := score + techAdjustment answerText
  let score := if hasStructure answerText then score + 10 else score
  let score := score + relevanceAdjustment questionText answerText
  min (max score 0) 100

/-- `AnswerEvaluator.generateFeedback` (answer-service.ts lines 134-159). -/
def generateFeedback (answerText questionText : String) (score : Int)
    (category difficulty : String) : String :=
  let wc := wordCount answerText
  let feedback :=
    if score ≥ 80 then
      "Excellent answer! You provided a comprehensive response to the " ++
        category ++ " question. Your explanation demonstrates strong understanding."
    else if score ≥ 60 then
      "Good response! Your answer shows solid understanding of the topic."
    else if score ≥ 40 then
      "Your answer covers the basics but could be more detailed."
    else
      "Your answer needs improvement. Try including more technical depth and examples."
  if wc < 20 ∧ difficulty ≠ "easy" then
    feedback ++ "Consider providing more details in your answer."
  else feedback

/-- `AnswerEvaluator.analyzeAnswer` (answer-service.ts lines 161-215):
the four binary checks producing strengths and improvements, with the
two defaults when a list remains empty. -/
def analyzeAnswer (answerText difficulty : String) : List String × List String :=
  let low := toLowerList answerText.data
  let codeCheck := containsSub "```".data answerText.data ||
    answerText.data.contains '\x7b' || answerText.data.contains '['
  let linesCheck := (answerText.data.filter (fun c => c = '\n')).length + 1 > 3
  let termCheck := containsSub "algorithm".data low ||
    containsSub "complexity".data low || containsSub "optimization".data low
  let reasonCheck := containsSub "because".data answerText.data ||
    containsSub "therefore".data answerText.data ||
    containsSub "this means".data answerText.data
  let strengths :=
    (if codeCheck then ["Good: Included code examples or pseudo-code"] else []) ++
    (if linesCheck then ["Good: Well-structured and organized answer"] else []) ++
    (if termCheck then ["Good: Used appropriate technical terminology"] else []) ++
    (if reasonCheck then ["Good: Clear explanations and reasoning"] else [])
  let improvements :=
    (if ¬ codeCheck ∧ difficulty ≠ "easy" then
      ["Consider adding code examples to illustrate concepts"] else []) ++
    (if ¬ linesCheck then
      ["Try formatting your answer with line breaks for clarity"] else []) ++
    (if ¬ termCheck ∧ (difficulty = "medium" ∨ difficulty = "hard") then
      ["Use more technical terminology specific to the domain"] else []) ++
    (if ¬ reasonCheck then ["Explain your reasoning behind key points"] else [])
  let strengths :=
    if strengths = [] then ["Attempted to answer the question"] else strengths
  let improvements :=
    if improvements = [] then ["Keep practicing with similar questions"] else improvements
  (strengths, improvements)

/-- `AnswerEvaluator.generateSuggestions` (answer-service.ts lines 217-234). -/
def generateSuggestions (category difficulty : String)
    (improvements : List String) : List String :=
  ["Practice more " ++ difficulty ++ " level " ++ category ++ " questions",
   "Review resources and documentation for this topic",
   "Explain your answers out loud to practice communication",
   "Mock interviews help - they simulate real interview conditions"] ++
  (if difficulty = "hard" then
    ["Work through similar problems step by step",
     "Understand the core concepts before attempting harder variants"]
   else [])

end AnswerEvaluator

/-- The `AnswerEvaluation` interface of shared/schema.ts (lines 130-137). -/
structure AnswerEvaluation where
  score : Int
  feedback : String
  strengths : List String
  improvements : List String
  suggestions : List String
  evaluationTime : Nat
deriving Repr, DecidableEq

namespace AnswerEvaluator

/-- `AnswerEvaluator.evaluateAnswer` (answer-service.ts lines 14-57) without
its cosmetic progress pacing: the wall-clock evaluation time, the only
non-input-determined quantity, is passed in as `elapsed`. -/
def evaluateAnswer (answerText questionText difficulty category : String)
    (elapsed : Nat) : AnswerEvaluation :=
  let score := calculateScore answerText questionText difficulty
  let feedback := generateFeedback answerText questionText score category difficulty
  let analysis := analyzeAnswer answerText difficulty
  let suggestions := generateSuggestions category difficulty analysis.2
  { score := score, feedback := feedback, strengths := analysis.1,
    improvements := analysis.2, suggestions := suggestions,
    evaluationTime := elapsed }

end AnswerEvaluator

/-- The `Answer` row type of shared/schema.ts (lines 102-114); `Date`
timestamps are modelled as `Nat`. -/
structure Answer where
  id : String
  interviewId : String
  questionId : String
  userId : String
  answerText : String
  confidence : Option Int
  feedback : Option String
  score : Option Int
  evaluationStatus : Option String
  submittedAt : Nat
  evaluatedAt : Option Nat
deriving Repr, DecidableEq

/-- `Omit<Answer, "id" | "submittedAt">` — the argument of `saveAnswer`. -/
structure NewAnswer where
  interviewId : String
  questionId : String
  userId : String
  answerText : String
  confidence : Option Int
  feedback : Option String
  score : Option Int
  evaluationStatus : Option String
  evaluatedAt : Option Nat
deriving Repr, DecidableEq

/-- The `Map<string, Answer>` of `MemAnswerStorage`, as an association list
in insertion order. -/
abbrev AnswerStore := List (String × Answer)

/-- JavaScript `Map.get`. -/
def lookupStore : AnswerStore → String → Option Answer
  | [], _ => none
  | (k, v) :: rest, key => if k = key then some v else lookupStore rest key

/-- JavaScript `Map.set`: replace the existing entry or append a new one. -/
def storeSet : AnswerStore → String → Answer → AnswerStore
  | [], key, v => [(key, v)]
  | (k, w) :: rest, key, v =>
    if k = key then (key, v) :: rest else (k, w) :: storeSet rest key v

namespace MemAnswerStorage

/-- `MemAnswerStorage.saveAnswer` (answer-service.ts lines 247-256): the
generated `randomUUID` and `new Date()` are passed in as `newId` / `now`. -/
def saveAnswer (st : AnswerStore) (answer : NewAnswer) (newId : String)
    (now : Nat) : AnswerStore × Answer :=
  let newAnswer : Answer :=
    { id := newId, interviewId := answer.interviewId,
      questionId := answer.questionId, userId := answer.userId,
      answerText := answer.answerText, confidence := answer.confidence,
      feedback := answer.feedback, score := answer.score,
      evaluationStatus := answer.evaluationStatus, submittedAt := now,
      evaluatedAt := answer.evaluatedAt }
  (storeSet st newId newAnswer, newAnswer)

/-- The updated record built by `updateAnswerEvaluation`
(answer-service.ts lines 262-268). -/
def evaluatedAnswer (answer : Answer) (evaluation : AnswerEvaluation)
    (now : Nat) : Answer :=
  { answer with
    feedback := some evaluation.feedback,
    score := some evaluation.score,
    evaluationStatus := some "completed",
    evaluatedAt := some now }

/-- `MemAnswerStorage.updateAnswerEvaluation` (answer-service.ts lines
258-271).  The thrown `Error` is modelled as `Except.error`; since the
throw happens before any write, the store is returned unchanged in that
case. -/
def updateAnswerEvaluation (st : AnswerStore) (answerId : String)
    (evaluation : AnswerEvaluation) (now : Nat) :
    AnswerStore × Except String Answer :=
  match lookupStore st answerId with
  | none => (st, Except.error ("Answer " ++ answerId ++ " not found"))
  | some answer =>
    let updated := evaluatedAnswer answer evaluation now
    (storeSet st answerId updated, Except.ok updated)

/-- `MemAnswerStorage.getAnswer` (answer-service.ts lines 279-281). -/
def getAnswer (st : AnswerStore) (answerId : String) : Option Answer :=
  lookupStore st answerId

/-- `MemAnswerStorage.getAnswersByInterview` (answer-service.ts lines 273-277). -/
def getAnswersByInterview (st : AnswerStore) (interviewId : String) : List Answer :=
  (st.map Prod.snd).filter (fun a => a.interviewId = interviewId)

end MemAnswerStorage

/-- The record the POST /api/answers/submit handler passes to `saveAnswer`
(routes, lines 207-211): the validated submission fields plus the
authenticated user id, with `evaluationStatus: "pending"` and no score,
feedback or evaluation timestamp. -/
def submitNewAnswer (interviewId questionId answerText : String)
    (confidence : Option Int) (userId : String) : NewAnswer :=
  { interviewId := interviewId, questionId := questionId, userId := userId,
    answerText := answerText, confidence := confidence,
    feedback := none, score := none,
    evaluationStatus := some "pending", evaluatedAt := none }

/-- Word count as the spec's words describe it: the tokens obtained by
splitting the trimmed text on whitespace runs (naive splitting, so the
empty trimmed text still yields one token).  Declared only to compare the
spec's wording against the source's `wordCount`. -/
def specWordCount (s : String) : Nat :=
  (splitWs ((s.data.dropWhile Char.isWhitespace).reverse.dropWhile
    Char.isWhitespace).reverse).length

/-! ### Helper lemmas -/

theorem splitWs_length (l : List Char) : (splitWs l).length = wsRuns l + 1 := by
  induction l with
  | nil => rfl
  | cons c cs ih =>
    cases cs with
    | nil =>
      by_cases h : c.isWhitespace <;> simp [splitWs, wsRuns, h]
    | cons c2 cs2 =>
      by_cases h : c.isWhitespace
      · by_cases h2 : c2.isWhitespace
        · simp only [splitWs, wsRuns, h, h2, if_pos, if_neg]
          simp [h, h2, ih]
        · simp only [splitWs, wsRuns]
          simp [h, h2, ih]
          omega
      · rcases hsp : splitWs (c2 :: cs2) with _ | ⟨t, ts⟩
        · rw [hsp] at ih; simp [wsRuns] at ih
        · rw [hsp] at ih
          simp only [splitWs, wsRuns]
          simp only [h, if_false, Bool.false_eq_true, false_and, if_neg,
            not_false_iff]
          rw [hsp]
          simp only [List.length_cons] at ih ⊢
          omega

theorem lengthBonus_mono (d : String) {w1 w2 : Nat} (h : w1 ≤ w2) :
    AnswerEvaluator.lengthBonus d w1 ≤ AnswerEvaluator.lengthBonus d w2 := by
  simp only [AnswerEvaluator.lengthBonus]
  split_ifs <;> omega

theorem lookup_storeSet_self (st : AnswerStore) (k : String) (v : Answer) :
    lookupStore (storeSet st k v) k = some v := by
  induction st with
  | nil => simp [storeSet, lookupStore]
  | cons p rest ih =>
    obtain ⟨k2, w⟩ := p
    by_cases h : k2 = k <;> simp [storeSet, lookupStore, h, ih]

theorem lookup_storeSet_ne (st : AnswerStore) (k k2 : String) (v : Answer)
    (h : k2 ≠ k) : lookupStore (storeSet st k v) k2 = lookupStore st k2 := by
  induction st with
  | nil => simp [storeSet, lookupStore, Ne.symm h]
  | cons p rest ih =>
    obtain ⟨k3, w⟩ := p
    by_cases h3 : k3 = k
    · subst h3
      simp [storeSet, lookupStore, Ne.symm h]
    · simp [storeSet, lookupStore, h3, ih]

theorem storeSet_append_of_fresh (st : AnswerStore) (k : String) (v : Answer)
    (h : lookupStore st k = none) : storeSet st k v = st ++ [(k, v)] := by
  induction st with
  | nil => simp [storeSet]
  | cons p rest ih =>
    obtain ⟨k2, w⟩ := p
    simp only [lookupStore] at h
    by_cases h2 : k2 = k
    · simp [h2] at h
    · simp only [h2, if_neg, not_false_iff] at h
      simp [storeSet, h2, ih h]

/-! ### Concrete fixtures for the store theorems -/

/-- A concrete stored answer record. -/
def sampleAnswer : Answer :=
  { id := "a1", interviewId := "i1", questionId := "q1", userId := "u1",
    answerText := "hello", confidence := some 3, feedback := none,
    score := none, evaluationStatus := some "pending", submittedAt := 5,
    evaluatedAt := none }

/-- A concrete evaluation result. -/
def sampleEvaluation : AnswerEvaluation :=
  { score := 80, feedback := "well done", strengths := [], improvements := [],
    suggestions := [], evaluationTime := 1 }

/-- A store holding one answer under id "a1". -/
def sampleStore : AnswerStore := [("a1", sampleAnswer)]

/-- The composition performed by the POST /api/answers/submit handler
(routes, lines 207-211): `saveAnswer` applied to the record the handler
builds from the validated payload. -/
def submitSave (st : AnswerStore) (interviewId questionId answerText : String)
    (confidence : Option Int) (userId newId : String) (now : Nat) :
    AnswerStore × Answer :=
  MemAnswerStorage.saveAnswer st
    (submitNewAnswer interviewId questionId answerText confidence userId)
    newId now

/-! ### Claim theorems -/

/-- C1: for every answer text, question text, difficulty and category, the
evaluator's score equals clamp(50 + adjustments, 0, 100) and lies in the
range [0, 100]. -/
theorem calculateScore_clamped_in_range
    (answerText questionText difficulty category : String) (elapsed : Nat) :
    (AnswerEvaluator.evaluateAnswer answerText questionText difficulty
      category elapsed).score
      = AnswerEvaluator.calculateScore answerText questionText difficulty ∧
    0 ≤ AnswerEvaluator.calculateScore answerText questionText difficulty ∧
    AnswerEvaluator.calculateScore answerText questionText difficulty ≤ 100 ∧
    AnswerEvaluator.calculateScore answerText questionText difficulty =
      min (max (50 + AnswerEvaluator.lengthBonus difficulty (wordCount answerText)
        + AnswerEvaluator.techAdjustment answerText
        + (if AnswerEvaluator.hasStructure answerText then (10 : Int) else 0)
        + AnswerEvaluator.relevanceAdjustment questionText answerText) 0) 100 := by
  refine ⟨rfl, ?_, ?_, ?_⟩ <;>
    simp only [AnswerEvaluator.calculateScore] <;> split_ifs <;> omega

/-- C10: the baseline is 50 and every adjustment is non-negative, so for
every input the score lies in [50, 100] and the lower clamp bound is never
binding. -/
theorem calculateScore_at_least_fifty
    (answerText questionText difficulty : String) :
    50 ≤ AnswerEvaluator.calculateScore answerText questionText difficulty ∧
    AnswerEvaluator.calculateScore answerText questionText difficulty ≤ 100 := by
  constructor <;>
    (simp only [AnswerEvaluator.calculateScore, AnswerEvaluator.lengthBonus,
      AnswerEvaluator.techAdjustment, AnswerEvaluator.relevanceAdjustment]
     split_ifs <;> omega)

/-- C3: holding the technical-term count, structure flag and relevance
count fixed, the score is monotonically non-decreasing in the word count,
in particular when both word counts are at most the difficulty's high
threshold. -/
theorem calculateScore_monotone_wordCount
    (questionText difficulty a1 a2 : String)
    (hT : AnswerEvaluator.countTechnicalTerms a1 =
      AnswerEvaluator.countTechnicalTerms a2)
    (hS : AnswerEvaluator.hasStructure a1 = AnswerEvaluator.hasStructure a2)
    (hR : AnswerEvaluator.relevantCount questionText a1 =
      AnswerEvaluator.relevantCount questionText a2)
    (h1 : wordCount a1 ≤ AnswerEvaluator.highThreshold difficulty)
    (h2 : wordCount a2 ≤ AnswerEvaluator.highThreshold difficulty)
    (hw : wordCount a1 ≤ wordCount a2) :
    AnswerEvaluator.calculateScore a1 questionText difficulty ≤
      AnswerEvaluator.calculateScore a2 questionText difficulty := by
  have hlb := lengthBonus_mono difficulty hw
  simp only [AnswerEvaluator.calculateScore, AnswerEvaluator.techAdjustment,
    AnswerEvaluator.relevanceAdjustment, hT, hS, hR]
  split_ifs <;> omega

/-- C3 witness: two concrete answers with identical non-length features and
word counts 1 ≤ 2 ≤ 30 under difficulty "easy". -/
theorem calculateScore_monotone_wordCount_witness :
    AnswerEvaluator.countTechnicalTerms "a" =
      AnswerEvaluator.countTechnicalTerms "b b" ∧
    AnswerEvaluator.hasStructure "a" = AnswerEvaluator.hasStructure "b b" ∧
    AnswerEvaluator.relevantCount "" "a" = AnswerEvaluator.relevantCount "" "b b" ∧
    wordCount "a" ≤ AnswerEvaluator.highThreshold "easy" ∧
    wordCount "b b" ≤ AnswerEvaluator.highThreshold "easy" ∧
    wordCount "a" ≤ wordCount "b b" ∧
    AnswerEvaluator.calculateScore "a" "" "easy" ≤
      AnswerEvaluator.calculateScore "b b" "" "easy" :=
  ⟨by decide, by decide, by decide, by decide, by decide, by decide,
   calculateScore_monotone_wordCount "" "easy" "a" "b b"
     (by decide) (by decide) (by decide) (by decide) (by decide) (by decide)⟩

/-- C4: the technical-depth adjustment is exactly 3 points per distinct
matched keyword capped at 15, is non-negative, and never exceeds 15. -/
theorem techAdjustment_capped (answerText : String) :
    AnswerEvaluator.techAdjustment answerText =
      min (3 * (AnswerEvaluator.countTechnicalTerms answerText : Int)) 15 ∧
    0 ≤ AnswerEvaluator.techAdjustment answerText ∧
    AnswerEvaluator.techAdjustment answerText ≤ 15 := by
  refine ⟨?_, ?_, ?_⟩ <;> simp only [AnswerEvaluator.techAdjustment] <;> omega

/-- C5: the relevance adjustment is exactly 5 points per matching question
token capped at 15, is non-negative, never exceeds 15, and matching is by
substring: the token "test" embedded in "attestation" counts. -/
theorem relevanceAdjustment_capped (questionText answerText : String) :
    AnswerEvaluator.relevanceAdjustment questionText answerText =
      min (5 * (AnswerEvaluator.relevantCount questionText answerText : Int)) 15 ∧
    0 ≤ AnswerEvaluator.relevanceAdjustment questionText answerText ∧
    AnswerEvaluator.relevanceAdjustment questionText answerText ≤ 15 ∧
    AnswerEvaluator.relevantCount "test" "attestation" = 1 := by
  refine ⟨?_, ?_, ?_, by decide⟩ <;>
    (simp only [AnswerEvaluator.relevanceAdjustment]; split_ifs <;> omega)

/-- C2 counterexample: for the answer text " a" the code's word count is 2
while splitting the trimmed text on whitespace runs yields 1 — leading
whitespace does add a word. -/
theorem wordCount_leading_whitespace_counterexample :
    wordCount " a" = 2 ∧ specWordCount " a" = 1 ∧
    wordCount " a" ≠ specWordCount " a" := by decide

/-- C2 amended: the word count used by the length adjustment and the
feedback addendum equals one plus the number of maximal whitespace runs of
the (untrimmed) answer text, so a leading or trailing whitespace run adds
one word each and the empty text yields 1. -/
theorem wordCount_eq_wsRuns_add_one (s : String) :
    wordCount s = wsRuns s.data + 1 :=
  splitWs_length s.data

/-- C9: the score and feedback returned by `evaluateAnswer` are a pure
function of the answer text, question text, difficulty and category: they
do not depend on the ambient timing. -/
theorem evaluateAnswer_deterministic
    (answerText questionText difficulty category : String) (t1 t2 : Nat) :
    (AnswerEvaluator.evaluateAnswer answerText questionText difficulty
      category t1).score =
      (AnswerEvaluator.evaluateAnswer answerText questionText difficulty
        category t2).score ∧
    (AnswerEvaluator.evaluateAnswer answerText questionText difficulty
      category t1).feedback =
      (AnswerEvaluator.evaluateAnswer answerText questionText difficulty
        category t2).feedback :=
  ⟨rfl, rfl⟩

/-- C6: `updateAnswerEvaluation` on a present id replaces the stored record
with one taking feedback and score from the evaluation, status exactly
"completed", evaluation timestamp set, every other field unchanged, and
leaves every other key untouched. -/
theorem updateAnswerEvaluation_found_spec
    (st : AnswerStore) (answerId : String) (evaluation : AnswerEvaluation)
    (now : Nat) (a : Answer) (k : String)
    (h : lookupStore st answerId = some a) (hk : k ≠ answerId) :
    MemAnswerStorage.updateAnswerEvaluation st answerId evaluation now =
      (storeSet st answerId (MemAnswerStorage.evaluatedAnswer a evaluation now),
       Except.ok (MemAnswerStorage.evaluatedAnswer a evaluation now)) ∧
    lookupStore
        (MemAnswerStorage.updateAnswerEvaluation st answerId evaluation now).1
        answerId =
      some (MemAnswerStorage.evaluatedAnswer a evaluation now) ∧
    lookupStore
        (MemAnswerStorage.updateAnswerEvaluation st answerId evaluation now).1 k =
      lookupStore st k ∧
    (MemAnswerStorage.evaluatedAnswer a evaluation now).feedback =
      some evaluation.feedback ∧
    (MemAnswerStorage.evaluatedAnswer a evaluation now).score =
      some evaluation.score ∧
    (MemAnswerStorage.evaluatedAnswer a evaluation now).evaluationStatus =
      some "completed" ∧
    (MemAnswerStorage.evaluatedAnswer a evaluation now).evaluatedAt = some now ∧
    (MemAnswerStorage.evaluatedAnswer a evaluation now).id = a.id ∧
    (MemAnswerStorage.evaluatedAnswer a evaluation now).interviewId =
      a.interviewId ∧
    (MemAnswerStorage.evaluatedAnswer a evaluation now).questionId =
      a.questionId ∧
    (MemAnswerStorage.evaluatedAnswer a evaluation now).userId = a.userId ∧
    (MemAnswerStorage.evaluatedAnswer a evaluation now).answerText =
      a.answerText ∧
    (MemAnswerStorage.evaluatedAnswer a evaluation now).confidence =
      a.confidence ∧
    (MemAnswerStorage.evaluatedAnswer a evaluation now).submittedAt =
      a.submittedAt := by
  have heq : MemAnswerStorage.updateAnswerEvaluation st answerId evaluation now =
      (storeSet st answerId (MemAnswerStorage.evaluatedAnswer a evaluation now),
       Except.ok (MemAnswerStorage.evaluatedAnswer a evaluation now)) := by
    simp [MemAnswerStorage.updateAnswerEvaluation, h]
  refine ⟨heq, ?_, ?_, rfl, rfl, rfl, rfl, rfl, rfl, rfl, rfl, rfl, rfl, rfl⟩
  · rw [heq]
    exact lookup_storeSet_self st answerId _
  · rw [heq]
    exact lookup_storeSet_ne st answerId k _ hk

/-- C6 witness: the theorem applied to a concrete one-record store. -/
theorem updateAnswerEvaluation_found_spec_witness :
    MemAnswerStorage.updateAnswerEvaluation sampleStore "a1" sampleEvaluation 9 =
      (storeSet sampleStore "a1"
        (MemAnswerStorage.evaluatedAnswer sampleAnswer sampleEvaluation 9),
       Except.ok (MemAnswerStorage.evaluatedAnswer sampleAnswer sampleEvaluation 9)) ∧
    lookupStore
        (MemAnswerStorage.updateAnswerEvaluation sampleStore "a1"
          sampleEvaluation 9).1 "a1" =
      some (MemAnswerStorage.evaluatedAnswer sampleAnswer sampleEvaluation 9) ∧
    lookupStore
        (MemAnswerStorage.updateAnswerEvaluation sampleStore "a1"
          sampleEvaluation 9).1 "zz" =
      lookupStore sampleStore "zz" ∧
    (MemAnswerStorage.evaluatedAnswer sampleAnswer sampleEvaluation 9).feedback =
      some sampleEvaluation.feedback ∧
    (MemAnswerStorage.evaluatedAnswer sampleAnswer sampleEvaluation 9).score =
      some sampleEvaluation.score ∧
    (MemAnswerStorage.evaluatedAnswer sampleAnswer sampleEvaluation
      9).evaluationStatus = some "completed" ∧
    (MemAnswerStorage.evaluatedAnswer sampleAnswer sampleEvaluation
      9).evaluatedAt = some 9 ∧
    (MemAnswerStorage.evaluatedAnswer sampleAnswer sampleEvaluation 9).id =
      sampleAnswer.id ∧
    (MemAnswerStorage.evaluatedAnswer sampleAnswer sampleEvaluation
      9).interviewId = sampleAnswer.interviewId ∧
    (MemAnswerStorage.evaluatedAnswer sampleAnswer sampleEvaluation
      9).questionId = sampleAnswer.questionId ∧
    (MemAnswerStorage.evaluatedAnswer sampleAnswer sampleEvaluation 9).userId =
      sampleAnswer.userId ∧
    (MemAnswerStorage.evaluatedAnswer sampleAnswer sampleEvaluation
      9).answerText = sampleAnswer.answerText ∧
    (MemAnswerStorage.evaluatedAnswer sampleAnswer sampleEvaluation
      9).confidence = sampleAnswer.confidence ∧
    (MemAnswerStorage.evaluatedAnswer sampleAnswer sampleEvaluation
      9).submittedAt = sampleAnswer.submittedAt :=
  updateAnswerEvaluation_found_spec sampleStore "a1" sampleEvaluation 9
    sampleAnswer "zz" (by decide) (by decide)

/-- C7: `updateAnswerEvaluation` on an absent id produces the not-found
error, returns the store unchanged, and every previously stored record is
still retrievable unmodified. -/
theorem updateAnswerEvaluation_notFound_spec
    (st : AnswerStore) (answerId : String) (evaluation : AnswerEvaluation)
    (now : Nat) (k : String)
    (h : lookupStore st answerId = none) :
    MemAnswerStorage.updateAnswerEvaluation st answerId evaluation now =
      (st, Except.error ("Answer " ++ answerId ++ " not found")) ∧
    lookupStore
        (MemAnswerStorage.updateAnswerEvaluation st answerId evaluation now).1 k =
      lookupStore st k := by
  have heq : MemAnswerStorage.updateAnswerEvaluation st answerId evaluation now =
      (st, Except.error ("Answer " ++ answerId ++ " not found")) := by
    simp [MemAnswerStorage.updateAnswerEvaluation, h]
  exact ⟨heq, by rw [heq]⟩

/-- C7 witness: the theorem applied to a store that does not contain the
id "zz" but does contain "a1", which stays retrievable. -/
theorem updateAnswerEvaluation_notFound_spec_witness :
    MemAnswerStorage.updateAnswerEvaluation sampleStore "zz" sampleEvaluation 9 =
      (sampleStore, Except.error ("Answer " ++ "zz" ++ " not found")) ∧
    lookupStore
        (MemAnswerStorage.updateAnswerEvaluation sampleStore "zz"
          sampleEvaluation 9).1 "a1" =
      lookupStore sampleStore "a1" :=
  updateAnswerEvaluation_notFound_spec sampleStore "zz" sampleEvaluation 9 "a1"
    (by decide)

/-- C8: the record stored by the submit handler's `saveAnswer` call has
status exactly "pending", no score, feedback or evaluation timestamp, the
fresh id and the submission timestamp, carries the submitted fields, is
retrievable under the fresh id, is appended without touching any existing
record, and is returned to the caller. -/
theorem saveAnswer_pending_spec
    (st : AnswerStore) (interviewId questionId answerText userId newId : String)
    (confidence : Option Int) (now : Nat) (k : String)
    (hfresh : lookupStore st newId = none) (hk : k ≠ newId) :
    (submitSave st interviewId questionId answerText confidence userId newId
      now).2.evaluationStatus = some "pending" ∧
    (submitSave st interviewId questionId answerText confidence userId newId
      now).2.score = none ∧
    (submitSave st interviewId questionId answerText confidence userId newId
      now).2.feedback = none ∧
    (submitSave st interviewId questionId answerText confidence userId newId
      now).2.evaluatedAt = none ∧
    (submitSave st interviewId questionId answerText confidence userId newId
      now).2.id = newId ∧
    (submitSave st interviewId questionId answerText confidence userId newId
      now).2.submittedAt = now ∧
    (submitSave st interviewId questionId answerText confidence userId newId
      now).2.interviewId = interviewId ∧
    (submitSave st interviewId questionId answerText confidence userId newId
      now).2.questionId = questionId ∧
    (submitSave st interviewId questionId answerText confidence userId newId
      now).2.userId = userId ∧
    (submitSave st interviewId questionId answerText confidence userId newId
      now).2.answerText = answerText ∧
    (submitSave st interviewId questionId answerText confidence userId newId
      now).2.confidence = confidence ∧
    lookupStore (submitSave st interviewId questionId answerText confidence
      userId newId now).1 newId =
      some (submitSave st interviewId questionId answerText confidence userId
        newId now).2 ∧
    (submitSave st interviewId questionId answerText confidence userId newId
      now).1 =
      st ++ [(newId, (submitSave st interviewId questionId answerText confidence
        userId newId now).2)] ∧
    lookupStore (submitSave st interviewId questionId answerText confidence
      userId newId now).1 k = lookupStore st k := by
  refine ⟨rfl, rfl, rfl, rfl, rfl, rfl, rfl, rfl, rfl, rfl, rfl, ?_, ?_, ?_⟩
  · exact lookup_storeSet_self st newId _
  · exact storeSet_append_of_fresh st newId _ hfresh
  · exact lookup_storeSet_ne st newId k _ hk

/-- C8 witness: the theorem applied to the concrete one-record store with a
fresh id "b7". -/
theorem saveAnswer_pending_spec_witness :
    (submitSave sampleStore "i1" "q1" "my answer" (some 4) "u1" "b7"
      7).2.evaluationStatus = some "pending" ∧
    (submitSave sampleStore "i1" "q1" "my answer" (some 4) "u1" "b7"
      7).2.score = none ∧
    (submitSave sampleStore "i1" "q1" "my answer" (some 4) "u1" "b7"
      7).2.feedback = none ∧
    (submitSave sampleStore "i1" "q1" "my answer" (some 4) "u1" "b7"
      7).2.evaluatedAt = none ∧
    (submitSave sampleStore "i1" "q1" "my answer" (some 4) "u1" "b7"
      7).2.id = "b7" ∧
    (submitSave sampleStore "i1" "q1" "my answer" (some 4) "u1" "b7"
      7).2.submittedAt = 7 ∧
    (submitSave sampleStore "i1" "q1" "my answer" (some 4) "u1" "b7"
      7).2.interviewId = "i1" ∧
    (submitSave sampleStore "i1" "q1" "my answer" (some 4) "u1" "b7"
      7).2.questionId = "q1" ∧
    (submitSave sampleStore "i1" "q1" "my answer" (some 4) "u1" "b7"
      7).2.userId = "u1" ∧
    (submitSave sampleStore "i1" "q1" "my answer" (some 4) "u1" "b7"
      7).2.answerText = "my answer" ∧
    (submitSave sampleStore "i1" "q1" "my answer" (some 4) "u1" "b7"
      7).2.confidence = some 4 ∧
    lookupStore (submitSave sampleStore "i1" "q1" "my answer" (some 4) "u1"
      "b7" 7).1 "b7" =
      some (submitSave sampleStore "i1" "q1" "my answer" (some 4) "u1" "b7"
        7).2 ∧
    (submitSave sampleStore "i1" "q1" "my answer" (some 4) "u1" "b7" 7).1 =
      sampleStore ++ [("b7", (submitSave sampleStore "i1" "q1" "my answer"
        (some 4) "u1" "b7" 7).2)] ∧
    lookupStore (submitSave sampleStore "i1" "q1" "my answer" (some 4) "u1"
      "b7" 7).1 "a1" = lookupStore sampleStore "a1" :=
  saveAnswer_pending_spec sampleStore "i1" "q1" "my answer" "u1" "b7"
    (some 4) 7 "a1" (by decide) (by decide)

end PlacementPanic
